import Mathlib

/-!
Shallow embedding of `src/shs1.c` (Secret-Handshake v1 core).

Byte strings are modelled as `List Nat`.  The libsodium primitives the code
calls (`crypto_auth`, `crypto_scalarmult`, `crypto_sign_*`,
`crypto_hash_sha256`, `crypto_secretbox_*`) are external to the repository;
they are modelled as the fields of an abstract `Crypto` structure, so that
every theorem quantifies over the primitive suite.  A small executable
`toyCrypto` instance is provided for witnesses and counterexamples.

Fixed sizes from the C constants: `crypto_auth_KEYBYTES = 32`,
`crypto_auth_BYTES = 32`, `crypto_box_PUBLICKEYBYTES = 32`,
`crypto_scalarmult_BYTES = 32`, `crypto_hash_sha256_BYTES = 32`,
`crypto_sign_BYTES = 64`, `crypto_sign_PUBLICKEYBYTES = 32`,
`crypto_box_NONCEBYTES = 24`, `HELLO_BYTES = 96`.

A `memcpy` of a fixed-size field into a buffer at a fixed offset is
translated as list concatenation; a read of `n` bytes at offset `k` of a
buffer as `(buf.drop k).take n`.  `crypto_scalarmult` writes its result and
returns nonzero exactly when the result is the all-zero point, so a call
site `if (crypto_scalarmult(dst, sk, pk) != 0)` is translated as a write of
`C.scalarmult sk pk` followed by a test against `zeros32`.
-/

/-- Byte strings (each entry one byte). -/
abbrev Bytes : Type := List Nat

/-- The all-zero 32-byte scalarmult output (failure indicator of
`crypto_scalarmult`). -/
def zeros32 : Bytes := List.replicate 32 0

/-- `static unsigned char zero_nonce[crypto_box_NONCEBYTES] = {0}` -/
def zero_nonce : Bytes := List.replicate 24 0

/-- Abstract suite of the libsodium primitives used by `shs1.c`.
`hmac key msg` is `crypto_auth` (HMAC-SHA-512-256, 32-byte tag),
`scalarmult sk pk` is `crypto_scalarmult` (output written even on failure;
failure iff the output is all-zero), `sk_to_curve` / `pk_to_curve` are the
Ed25519→Curve25519 conversions (`none` on failure), `sha256` is
`crypto_hash_sha256`, `sign sk msg` is `crypto_sign_detached`,
`sign_verify sig msg pk` is `crypto_sign_verify_detached == 0`,
`sealBox msg nonce key` is `crypto_secretbox_easy` and
`openBox ct nonce key` is `crypto_secretbox_open_easy` (`none` on MAC
failure, in which case it writes nothing). -/
structure Crypto where
  hmac : Bytes → Bytes → Bytes
  scalarmult : Bytes → Bytes → Bytes
  sk_to_curve : Bytes → Option Bytes
  pk_to_curve : Bytes → Option Bytes
  sha256 : Bytes → Bytes
  sign : Bytes → Bytes → Bytes
  sign_verify : Bytes → Bytes → Bytes → Bool
  sealBox : Bytes → Bytes → Bytes → Bytes
  openBox : Bytes → Bytes → Bytes → Option Bytes

/-- `crypto_auth_verify(tag, msg, len, key)`: recompute the HMAC tag and
compare (constant-time in libsodium); true iff the tag matches. -/
def crypto_auth_verify (C : Crypto) (tag msg key : Bytes) : Bool :=
  decide (tag = C.hmac key msg)

/-- `struct SHS1_Client` from `shs1.c`.  The six input pointers become the
six input fields; the five intermediate buffers become list fields.
The C struct lays out `shared_secret` directly before
`server_lterm_shared` and `hello` directly before `shared_hash`
(see the flat-memory definitions and the adjacency theorem below). -/
structure SHS1_Client where
  app : Bytes        -- K
  pub : Bytes        -- A_p
  sec : Bytes        -- A_s
  eph_pub : Bytes    -- a_p
  eph_sec : Bytes    -- a_s
  server_pub : Bytes -- B_p
  shared_secret : Bytes       -- (a_s * b_p), later reused for box_sec
  server_lterm_shared : Bytes -- (a_s * B_p)
  hello : Bytes               -- sig | A_p, later reused as scratch
  shared_hash : Bytes         -- hash(a_s * b_p)
  server_eph_pub : Bytes      -- b_p

/-- `shs1_init_client`: stores the six input pointers; the intermediate
buffers of the malloc-ed struct are uninitialised, modelled as `[]`. -/
def shs1_init_client (app pub sec eph_pub eph_sec server_pub : Bytes) : SHS1_Client :=
  { app := app, pub := pub, sec := sec, eph_pub := eph_pub, eph_sec := eph_sec,
    server_pub := server_pub,
    shared_secret := [], server_lterm_shared := [], hello := [],
    shared_hash := [], server_eph_pub := [] }

/-- `shs1_create_client_challenge`: `challenge <- hmac_{K}(a_p) | a_p`. -/
def shs1_create_client_challenge (C : Crypto) (client : SHS1_Client) : Bytes :=
  C.hmac client.app client.eph_pub ++ client.eph_pub

/-- `shs1_verify_server_challenge`: verify the HMAC tag over the 32 bytes at
offset 32 of the challenge; on success store them as `b_p`. -/
def shs1_verify_server_challenge (C : Crypto) (challenge : Bytes)
    (client : SHS1_Client) : Bool × SHS1_Client :=
  if crypto_auth_verify C (challenge.take 32) ((challenge.drop 32).take 32) client.app
  then (true, { client with server_eph_pub := (challenge.drop 32).take 32 })
  else (false, client)

/-- `shs1_create_client_auth`.  Return value is the C `int`: `0` on success,
`-1` when `crypto_sign_ed25519_pk_to_curve25519(B_p)` fails, `-2` when the
long-term `crypto_scalarmult` fails, and `false` — which is the int `0` —
when the short-term `crypto_scalarmult` fails.  The third component is the
`auth` output buffer (`none` when the function returned before sealing).
`client->shared_secret` is written before the short-term check and
`client->server_lterm_shared` before the long-term check, exactly as in the
C code. -/
def shs1_create_client_auth (C : Crypto) (client : SHS1_Client) :
    Int × SHS1_Client × Option Bytes :=
  let ss := C.scalarmult client.eph_sec client.server_eph_pub
  let c1 := { client with shared_secret := ss }
  if ss = zeros32 then ((0 : Int), c1, none)  -- `return false`: the C int value 0
  else
    match C.pk_to_curve client.server_pub with
    | none => (-1, c1, none)
    | some curve_server_pub =>
      let sls := C.scalarmult client.eph_sec curve_server_pub
      let c2 := { c1 with server_lterm_shared := sls }
      if sls = zeros32 then (-2, c2, none)
      else
        -- tmp = K | a_s * b_p | a_s * B_p
        let tmp := client.app ++ ss ++ sls
        let sh := C.sha256 ss
        let c3 := { c2 with shared_hash := sh }
        -- tmp2 = K | B_p | hash(a_s * b_p)
        let tmp2 := client.app ++ client.server_pub ++ sh
        let sig := C.sign client.sec tmp2
        -- H = sig | A_p
        let hello := sig ++ client.pub
        let c4 := { c3 with hello := hello }
        let box_sec := C.sha256 tmp
        (0, c4, some (C.sealBox hello zero_nonce box_sec))

/-- `shs1_verify_server_acc`.  The two `crypto_scalarmult(_, curve_sec,
server_eph_pub)` calls of the C code have identical arguments and are
modelled by one computation.  `BOX_SEC_STORAGE` is `client->shared_secret`
and `SIG_STORAGE` is `client->hello`; the secretbox-open writes the 64-byte
signature into the front of the 96-byte `hello` buffer. -/
def shs1_verify_server_acc (C : Crypto) (acc : Bytes) (client : SHS1_Client) :
    Bool × SHS1_Client :=
  match C.sk_to_curve client.sec with
  | none => (false, client)
  | some curve_sec =>
    let cls := C.scalarmult curve_sec client.server_eph_pub
    if cls = zeros32 then (false, client)
    else
      -- tmp = K | a_s * b_p | a_s * B_p | A_s * b_p
      let tmp := client.app ++ client.shared_secret ++ client.server_lterm_shared ++ cls
      let box_sec := C.sha256 tmp
      let c1 := { client with shared_secret := box_sec }
      -- expected = K | H | hash(a_s * b_p)
      let expected := client.app ++ client.hello ++ client.shared_hash
      match C.openBox acc zero_nonce box_sec with
      | none => (false, c1)
      | some sig =>
        let c2 := { c1 with hello := sig ++ client.hello.drop sig.length }
        (C.sign_verify sig expected client.server_pub, c2)

/-- `SHS1_Outcome`.
Modelled from the spec: the struct lives in `shs1.h`, which is not part of
the sources; per the spec the outcome is exactly
`encryption_key[32] || encryption_nonce[24] || decryption_key[32] ||
decryption_nonce[24]`, and "Nonces are the first 24 bytes of the 32-byte
HMAC tag", so the `crypto_auth` calls of the outcome functions land in the
24-byte nonce fields truncated to their first 24 bytes. -/
structure SHS1_Outcome where
  encryption_key : Bytes
  encryption_nonce : Bytes
  decryption_key : Bytes
  decryption_nonce : Bytes

/-- `shs1_client_outcome`.  `BOX_SEC_STORAGE` is `client->shared_secret`
(holding `hash(K | a_s*b_p | a_s*B_p | A_s*b_p)` after
`shs1_verify_server_acc`); `TMP_CLIENT_OUTCOME` reuses `client->hello` as
`hash(box_sec) | pk` scratch. -/
def shs1_client_outcome (C : Crypto) (client : SHS1_Client) : SHS1_Outcome :=
  let dh := C.sha256 client.shared_secret
  { encryption_key := C.sha256 (dh ++ client.server_pub),
    encryption_nonce := (C.hmac client.app client.server_eph_pub).take 24,
    decryption_key := C.sha256 (dh ++ client.pub),
    decryption_nonce := (C.hmac client.app client.eph_pub).take 24 }

/-- `struct SHS1_Server` from `shs1.c`.  `pub`/`sec` are the server's own
long-term keypair `B_p`/`B_s`; `eph_pub`/`eph_sec` are `b_p`/`b_s`.
The C struct lays out `client_hello` directly before `shared_hash`. -/
structure SHS1_Server where
  app : Bytes      -- K
  pub : Bytes      -- B_p
  sec : Bytes      -- B_s
  eph_pub : Bytes  -- b_p
  eph_sec : Bytes  -- b_s
  client_hello : Bytes   -- H = sig | A_p, later reused as scratch
  shared_hash : Bytes    -- hash(b_s * a_p), first reused as scratch
  client_eph_pub : Bytes -- a_p
  client_pub : Bytes     -- A_p
  box_sec : Bytes        -- hash(K | b_s*a_p | B_s*a_p | b_s*A_p)

/-- `shs1_init_server`: stores the five input pointers; intermediates are
uninitialised, modelled as `[]`. -/
def shs1_init_server (app pub sec eph_pub eph_sec : Bytes) : SHS1_Server :=
  { app := app, pub := pub, sec := sec, eph_pub := eph_pub, eph_sec := eph_sec,
    client_hello := [], shared_hash := [], client_eph_pub := [],
    client_pub := [], box_sec := [] }

/-- `shs1_verify_client_challenge`: verify the HMAC tag; on success store
the 32 bytes at offset 32 as `a_p`. -/
def shs1_verify_client_challenge (C : Crypto) (challenge : Bytes)
    (server : SHS1_Server) : Bool × SHS1_Server :=
  if crypto_auth_verify C (challenge.take 32) ((challenge.drop 32).take 32) server.app
  then (true, { server with client_eph_pub := (challenge.drop 32).take 32 })
  else (false, server)

/-- `shs1_create_server_challenge`: `challenge <- hmac_{K}(b_p) | b_p`. -/
def shs1_create_server_challenge (C : Crypto) (server : SHS1_Server) : Bytes :=
  C.hmac server.app server.eph_pub ++ server.eph_pub

/-- `shs1_verify_client_auth`.  `CURVE_SEC`, `TMP2` and `CURVE_CLIENT_PUB`
all reuse `server->shared_hash` as scratch before it receives its final
value `hash(b_s * a_p)`; `server->client_pub` is written as soon as the box
opens, and `server->box_sec` only after the signature verifies. -/
def shs1_verify_client_auth (C : Crypto) (auth : Bytes) (server : SHS1_Server) :
    Bool × SHS1_Server :=
  let ss := C.scalarmult server.eph_sec server.client_eph_pub
  if ss = zeros32 then (false, server)
  else
    match C.sk_to_curve server.sec with
    | none => (false, server)
    | some curve_sec =>
      let s1 := { server with shared_hash := curve_sec }
      let els := C.scalarmult curve_sec server.client_eph_pub
      if els = zeros32 then (false, s1)
      else
        -- hash(K | b_s * a_p | B_s * a_p)
        let tmp2 := C.sha256 (server.app ++ ss ++ els)
        let s2 := { s1 with shared_hash := tmp2 }
        match C.openBox auth zero_nonce tmp2 with
        | none => (false, s2)
        | some hello =>
          let s3 := { s2 with client_hello := hello,
                              client_pub := (hello.drop 64).take 32 }
          match C.pk_to_curve s3.client_pub with
          | none => (false, s3)
          | some curve_client_pub =>
            let s4 := { s3 with shared_hash := curve_client_pub }
            let lec := C.scalarmult server.eph_sec curve_client_pub
            if lec = zeros32 then (false, s4)
            else
              let s5 := { s4 with shared_hash := C.sha256 ss }
              -- expected = K | B_p | hash(a_s * b_p)
              let expected := server.app ++ server.pub ++ C.sha256 ss
              if C.sign_verify (hello.take 64) expected s3.client_pub
              then (true, { s5 with box_sec := C.sha256 (server.app ++ ss ++ els ++ lec) })
              else (false, s5)

/-- `shs1_create_server_acc`: sign `K | H | hash(b_s * a_p)` with `B_s`
(the signature is written into the front of the `client_hello` buffer,
`SIG`), then seal it under `box_sec`. -/
def shs1_create_server_acc (C : Crypto) (server : SHS1_Server) :
    Bytes × SHS1_Server :=
  let to_sign := server.app ++ server.client_hello ++ server.shared_hash
  let sig := C.sign server.sec to_sign
  let s1 := { server with client_hello := sig ++ server.client_hello.drop sig.length }
  (C.sealBox sig zero_nonce server.box_sec, s1)

/-- `shs1_server_outcome`; `TMP_SERVER_OUTCOME` reuses
`server->client_hello` as scratch. -/
def shs1_server_outcome (C : Crypto) (server : SHS1_Server) : SHS1_Outcome :=
  let dh := C.sha256 server.box_sec
  { encryption_key := C.sha256 (dh ++ server.client_pub),
    encryption_nonce := (C.hmac server.app server.client_eph_pub).take 24,
    decryption_key := C.sha256 (dh ++ server.pub),
    decryption_nonce := (C.hmac server.app server.eph_pub).take 24 }

/-- The eight operations of a full handshake, composed in protocol order
(the only order the callers may use).  Returns `none` as soon as an
operation fails — a verifier returning `false`, or `shs1_create_client_auth`
returning without having written the `auth` buffer. -/
def handshake (C : Crypto) (app A_p A_s a_p a_s B_p B_s b_p b_s : Bytes) :
    Option (SHS1_Outcome × SHS1_Outcome) :=
  let cl0 := shs1_init_client app A_p A_s a_p a_s B_p
  let sv0 := shs1_init_server app B_p B_s b_p b_s
  match shs1_verify_client_challenge C (shs1_create_client_challenge C cl0) sv0 with
  | (false, _) => none
  | (true, sv1) =>
    match shs1_verify_server_challenge C (shs1_create_server_challenge C sv1) cl0 with
    | (false, _) => none
    | (true, cl1) =>
      match shs1_create_client_auth C cl1 with
      | (_, _, none) => none
      | (_, cl2, some auth) =>
        match shs1_verify_client_auth C auth sv1 with
        | (false, _) => none
        | (true, sv2) =>
          match shs1_create_server_acc C sv2 with
          | (acc, sv3) =>
            match shs1_verify_server_acc C acc cl2 with
            | (false, _) => none
            | (true, cl3) =>
              some (shs1_client_outcome C cl3, shs1_server_outcome C sv3)

/-! ## Flat-memory views of the struct regions (for the adjacency claim)

The C code copies two adjacent struct fields with a single `memcpy`
(`2 * crypto_scalarmult_BYTES` bytes starting at `shared_secret`, and
`HELLO_BYTES + crypto_hash_sha256_BYTES` bytes starting at `hello` /
`client_hello`).  These definitions give the byte sequence found in memory
starting at the named field, following the declared field order of the
structs; a one-`memcpy` copy of `n` bytes is `.take n` of such a view. -/

/-- Client struct memory starting at `shared_secret` (declared field order:
`shared_secret`, `server_lterm_shared`, `hello`, `shared_hash`,
`server_eph_pub`). -/
def clientMemFromSharedSecret (c : SHS1_Client) : Bytes :=
  c.shared_secret ++ c.server_lterm_shared ++ c.hello ++ c.shared_hash ++ c.server_eph_pub

/-- Client struct memory starting at `hello` (declared field order: `hello`,
`shared_hash`, `server_eph_pub`). -/
def clientMemFromHello (c : SHS1_Client) : Bytes :=
  c.hello ++ c.shared_hash ++ c.server_eph_pub

/-- Server struct memory starting at `client_hello` (declared field order:
`client_hello`, `shared_hash`, `client_eph_pub`, `client_pub`, `box_sec`). -/
def serverMemFromClientHello (s : SHS1_Server) : Bytes :=
  s.client_hello ++ s.shared_hash ++ s.client_eph_pub ++ s.client_pub ++ s.box_sec

/-! ## An executable toy primitive suite

Used only to build concrete witnesses and counterexamples.  Lengths match
the libsodium constants (32-byte tags, hashes and shared secrets, 64-byte
signatures, 16-byte secretbox overhead); the arithmetic is of course not
cryptographic. -/

def toyHmac (key msg : Bytes) : Bytes :=
  List.replicate 32 ((3 * key.sum + msg.sum) % 251)

def toySha256 (msg : Bytes) : Bytes :=
  List.replicate 32 ((2 * msg.sum + 5) % 251)

/-- Commutative in `sk.sum * pk.sum`, so DH agreement holds whenever the
sum-products match; all-zero (failure) exactly when the product is `0 mod
251`. -/
def toyScalarmult (sk pk : Bytes) : Bytes :=
  List.replicate 32 ((sk.sum * pk.sum) % 251)

def toySkToCurve (sk : Bytes) : Option Bytes := some (sk.take 32)

def toyPkToCurve (pk : Bytes) : Option Bytes := some pk

def toySign (sk msg : Bytes) : Bytes :=
  List.replicate 32 (sk.sum % 251) ++ List.replicate 32 (msg.sum % 251)

/-- Valid toy keypairs are those with `pk.sum / 2 = sk.sum`. -/
def toySignVerify (sig msg pk : Bytes) : Bool :=
  decide (sig = List.replicate 32 (pk.sum / 2 % 251) ++ List.replicate 32 (msg.sum % 251))

def toySeal (msg nonce key : Bytes) : Bytes :=
  List.replicate 16 ((key.sum + nonce.sum + msg.sum) % 251) ++ msg

def toyOpen (ct nonce key : Bytes) : Option Bytes :=
  if ct.take 16 = List.replicate 16 ((key.sum + nonce.sum + (ct.drop 16).sum) % 251)
  then some (ct.drop 16) else none

def toyCrypto : Crypto :=
  { hmac := toyHmac, scalarmult := toyScalarmult, sk_to_curve := toySkToCurve,
    pk_to_curve := toyPkToCurve, sha256 := toySha256, sign := toySign,
    sign_verify := toySignVerify, sealBox := toySeal, openBox := toyOpen }

/-! Concrete toy key material.  Sums are arranged so that the three
Diffie-Hellman agreements and the two signature keypair relations hold:
`s(a_s)·s(b_p) = 10·60 = 30·20 = s(b_s)·s(a_p)`,
`s(a_s)·s(curve B_p) = 10·40 = 20·20 = s(curve B_s)·s(a_p)`,
`s(curve A_s)·s(b_p) = 25·60 = 30·50 = s(b_s)·s(curve A_p)`,
`s(A_p)/2 = 25 = s(A_s)` and `s(B_p)/2 = 20 = s(B_s)`. -/

def tK : Bytes := 1 :: List.replicate 31 0
def tA_p : Bytes := 50 :: List.replicate 31 0
def tA_s : Bytes := 25 :: List.replicate 63 0
def ta_p : Bytes := 20 :: List.replicate 31 0
def ta_s : Bytes := 10 :: List.replicate 31 0
def tB_p : Bytes := 40 :: List.replicate 31 0
def tB_s : Bytes := 20 :: List.replicate 63 0
def tb_p : Bytes := 60 :: List.replicate 31 0
def tb_s : Bytes := 30 :: List.replicate 31 0

/-! ## List helper lemmas -/

theorem take_append_exact (l r : Bytes) (n : Nat) (h : l.length = n) :
    (l ++ r).take n = l := by
  subst h
  simp [List.take_append]

theorem drop_append_exact (l r : Bytes) (n : Nat) (h : l.length = n) :
    (l ++ r).drop n = r := by
  subst h
  simp [List.drop_append]

theorem take_all_exact (l : Bytes) (n : Nat) (h : l.length = n) :
    l.take n = l := by
  subst h
  exact List.take_length l

/-! ## Shared concrete states for witnesses and counterexamples -/

/-- A 64-byte challenge whose tag does not verify under `tK`. -/
def badChallenge : Bytes := List.replicate 64 0

def wClient : SHS1_Client := shs1_init_client tK tA_p tA_s ta_p ta_s tB_p

def wServer : SHS1_Server := shs1_init_server tK tB_p tB_s tb_p tb_s

/-- Client state after a verified server challenge delivering `tb_p`. -/
def clientGood : SHS1_Client :=
  { wClient with server_eph_pub := tb_p }

/-- Client state after a server challenge delivering the all-zero point
(the toy scalarmult of anything with it is all-zero). -/
def clientLowOrder : SHS1_Client :=
  { wClient with server_eph_pub := List.replicate 32 0 }

/-- Server state after a verified client challenge delivering `ta_p`. -/
def serverChallenged : SHS1_Server :=
  { wServer with client_eph_pub := ta_p }

/-! ## C7 — challenge message structure -/

/-- C7: `shs1_create_client_challenge` emits `HMAC(K, a_p) || a_p` and
`shs1_create_server_challenge` emits `HMAC(K, b_p) || b_p` — the 32-byte
HMAC tag of the role's own ephemeral public key under `K`, followed by the
ephemeral public key itself. -/
theorem shs1_create_challenge_structure (C : Crypto) (cl : SHS1_Client) (sv : SHS1_Server) :
    shs1_create_client_challenge C cl = C.hmac cl.app cl.eph_pub ++ cl.eph_pub ∧
    shs1_create_server_challenge C sv = C.hmac sv.app sv.eph_pub ++ sv.eph_pub :=
  ⟨rfl, rfl⟩

/-! ## C6 — outcome nonces are HMAC prefixes -/

/-- C6: each role's outcome nonces are the first 24 bytes of an HMAC tag
under `K`: the client's `encryption_nonce` is `HMAC(K, b_p)[:24]` (where
`client.server_eph_pub` holds `b_p`) and its `decryption_nonce` is
`HMAC(K, a_p)[:24]`; the server's `encryption_nonce` is `HMAC(K, a_p)[:24]`
(where `server.client_eph_pub` holds `a_p`) and its `decryption_nonce` is
`HMAC(K, b_p)[:24]`. -/
theorem shs1_outcome_nonces_are_hmac_prefixes (C : Crypto)
    (cl : SHS1_Client) (sv : SHS1_Server) :
    (shs1_client_outcome C cl).encryption_nonce = (C.hmac cl.app cl.server_eph_pub).take 24 ∧
    (shs1_client_outcome C cl).decryption_nonce = (C.hmac cl.app cl.eph_pub).take 24 ∧
    (shs1_server_outcome C sv).encryption_nonce = (C.hmac sv.app sv.client_eph_pub).take 24 ∧
    (shs1_server_outcome C sv).decryption_nonce = (C.hmac sv.app sv.eph_pub).take 24 :=
  ⟨rfl, rfl, rfl, rfl⟩

/-! ## C9 — failed challenge verification leaves the state unchanged -/

/-- C9: if `shs1_verify_server_challenge` or `shs1_verify_client_challenge`
returns `false`, the session state object is completely unchanged (the
peer-ephemeral field is written only after the HMAC verification
succeeded). -/
theorem shs1_verify_challenge_failure_preserves_state (C : Crypto) (m : Bytes)
    (cl : SHS1_Client) (sv : SHS1_Server) :
    ((shs1_verify_server_challenge C m cl).1 = false →
      (shs1_verify_server_challenge C m cl).2 = cl) ∧
    ((shs1_verify_client_challenge C m sv).1 = false →
      (shs1_verify_client_challenge C m sv).2 = sv) := by
  refine ⟨?_, ?_⟩
  · unfold shs1_verify_server_challenge
    split <;> simp
  · unfold shs1_verify_client_challenge
    split <;> simp

theorem shs1_verify_challenge_failure_preserves_state_witness :
    (shs1_verify_server_challenge toyCrypto badChallenge wClient).2 = wClient ∧
    (shs1_verify_client_challenge toyCrypto badChallenge wServer).2 = wServer :=
  ⟨(shs1_verify_challenge_failure_preserves_state toyCrypto badChallenge wClient wServer).1
      (by decide),
   (shs1_verify_challenge_failure_preserves_state toyCrypto badChallenge wClient wServer).2
      (by decide)⟩

/-! ## C10 — adjacent-field memcpy shortcuts -/

/-- C10: the one-`memcpy` shortcuts that copy two adjacent state fields —
64 bytes starting at `shared_secret`, and 128 bytes starting at `hello`
(client) or `client_hello` (server) — produce exactly the concatenated
preimages `K || shared_secret || server_lterm_shared` and
`K || hello || shared_hash` that copying each field separately would,
given the declared sizes of the fields. -/
theorem shs1_adjacent_memcpy_equivalence (c : SHS1_Client) (s : SHS1_Server)
    (h1 : c.shared_secret.length = 32) (h2 : c.server_lterm_shared.length = 32)
    (h3 : c.hello.length = 96) (h4 : c.shared_hash.length = 32)
    (h5 : s.client_hello.length = 96) (h6 : s.shared_hash.length = 32) :
    c.app ++ (clientMemFromSharedSecret c).take 64
      = c.app ++ c.shared_secret ++ c.server_lterm_shared ∧
    c.app ++ (clientMemFromHello c).take 128 = c.app ++ c.hello ++ c.shared_hash ∧
    s.app ++ (serverMemFromClientHello s).take 128
      = s.app ++ s.client_hello ++ s.shared_hash := by
  refine ⟨?_, ?_, ?_⟩
  · have hm : clientMemFromSharedSecret c
        = (c.shared_secret ++ c.server_lterm_shared)
          ++ (c.hello ++ c.shared_hash ++ c.server_eph_pub) := by
      simp [clientMemFromSharedSecret, List.append_assoc]
    rw [hm, take_append_exact _ _ 64 (by simp [h1, h2]), List.append_assoc]
  · have hm : clientMemFromHello c
        = (c.hello ++ c.shared_hash) ++ c.server_eph_pub := by
      simp [clientMemFromHello, List.append_assoc]
    rw [hm, take_append_exact _ _ 128 (by simp [h3, h4]), List.append_assoc]
  · have hm : serverMemFromClientHello s
        = (s.client_hello ++ s.shared_hash)
          ++ (s.client_eph_pub ++ s.client_pub ++ s.box_sec) := by
      simp [serverMemFromClientHello, List.append_assoc]
    rw [hm, take_append_exact _ _ 128 (by simp [h5, h6]), List.append_assoc]

/-- Client state with well-formed intermediate buffer sizes. -/
def memClient : SHS1_Client :=
  { wClient with
    shared_secret := List.replicate 32 1, server_lterm_shared := List.replicate 32 2,
    hello := List.replicate 96 3, shared_hash := List.replicate 32 4,
    server_eph_pub := List.replicate 32 5 }

/-- Server state with well-formed intermediate buffer sizes. -/
def memServer : SHS1_Server :=
  { wServer with
    client_hello := List.replicate 96 6, shared_hash := List.replicate 32 7,
    client_eph_pub := List.replicate 32 8, client_pub := List.replicate 32 9,
    box_sec := List.replicate 32 10 }

theorem shs1_adjacent_memcpy_equivalence_witness :
    memClient.app ++ (clientMemFromSharedSecret memClient).take 64
      = memClient.app ++ memClient.shared_secret ++ memClient.server_lterm_shared ∧
    memClient.app ++ (clientMemFromHello memClient).take 128
      = memClient.app ++ memClient.hello ++ memClient.shared_hash ∧
    memServer.app ++ (serverMemFromClientHello memServer).take 128
      = memServer.app ++ memServer.client_hello ++ memServer.shared_hash :=
  shs1_adjacent_memcpy_equivalence memClient memServer
    (by decide) (by decide) (by decide) (by decide) (by decide) (by decide)

/-! ## C8 — wrong application key on the server -/

/-- C8: if the server's application key differs from the one the client
used to produce its challenge — so that the HMAC tag over the client's
ephemeral public key does not verify under the server's key — then
`shs1_verify_client_challenge` applied to that challenge returns `false`. -/
theorem shs1_verify_client_challenge_wrong_app_key (C : Crypto)
    (cl : SHS1_Client) (sv : SHS1_Server)
    (hK : sv.app ≠ cl.app)
    (hlen : (C.hmac cl.app cl.eph_pub).length = 32)
    (hlen2 : cl.eph_pub.length = 32)
    (hne : C.hmac sv.app cl.eph_pub ≠ C.hmac cl.app cl.eph_pub) :
    (shs1_verify_client_challenge C (shs1_create_client_challenge C cl) sv).1 = false := by
  unfold shs1_verify_client_challenge shs1_create_client_challenge crypto_auth_verify
  rw [take_append_exact _ _ 32 hlen, drop_append_exact _ _ 32 hlen,
    take_all_exact _ 32 hlen2]
  simp [Ne.symm hne]

def tK2 : Bytes := 2 :: List.replicate 31 0

def wServerK2 : SHS1_Server := shs1_init_server tK2 tB_p tB_s tb_p tb_s

theorem shs1_verify_client_challenge_wrong_app_key_witness :
    (shs1_verify_client_challenge toyCrypto
      (shs1_create_client_challenge toyCrypto wClient) wServerK2).1 = false :=
  shs1_verify_client_challenge_wrong_app_key toyCrypto wClient wServerK2
    (by decide) (by decide) (by decide) (by decide)

/-! ## C2 — return value of `shs1_create_client_auth` on short-term DH failure -/

/-- C2 (amended): when the ephemeral-ephemeral `scalarmult(a_s, b_p)` inside
`shs1_create_client_auth` fails (all-zero result), the operation returns
early without writing the auth message, but its return value is `false` —
the C int `0` — which coincides with the success return value `0`; only the
`-1` (Ed25519→Curve25519 conversion of `B_p` failed) and `-2` (long-term DH
failed) causes are distinguishable from success by the return value. -/
theorem shs1_create_client_auth_short_term_dh_failure (C : Crypto) (c : SHS1_Client)
    (h : C.scalarmult c.eph_sec c.server_eph_pub = zeros32) :
    (shs1_create_client_auth C c).1 = 0 ∧
    (shs1_create_client_auth C c).2.2 = none := by
  unfold shs1_create_client_auth
  simp [h]

theorem shs1_create_client_auth_short_term_dh_failure_witness :
    (shs1_create_client_auth toyCrypto clientLowOrder).1 = 0 ∧
    (shs1_create_client_auth toyCrypto clientLowOrder).2.2 = none :=
  shs1_create_client_auth_short_term_dh_failure toyCrypto clientLowOrder (by decide)

/-- C2 counterexample: a run in which the short-term DH fails (all-zero
shared secret, no auth message written) returns the very same value `0` as
a fully successful run, so the failure is not distinguishable from success
by the return value. -/
theorem shs1_create_client_auth_return_collision :
    (shs1_create_client_auth toyCrypto clientLowOrder).2.2 = none ∧
    (shs1_create_client_auth toyCrypto clientGood).2.2 ≠ none ∧
    (shs1_create_client_auth toyCrypto clientLowOrder).1 =
      (shs1_create_client_auth toyCrypto clientGood).1 := by
  decide

/-! ## C5 — `shs1_verify_server_acc` success characterization -/

/-- C5: `shs1_verify_server_acc` returns `true` iff the
Ed25519→Curve25519 conversion of `A_s` succeeds, the scalar multiplication
of the converted key with `b_p` succeeds (non-zero), the acc message opens
under the all-zero nonce with key
`SHA256(K || shared_secret || server_lterm_shared || client_lterm_shared)`,
and the recovered signature verifies under `B_p` over
`K || hello || shared_hash`; in every other case it returns `false`. -/
theorem shs1_verify_server_acc_characterization (C : Crypto) (acc : Bytes)
    (c : SHS1_Client) :
    (shs1_verify_server_acc C acc c).1 = true ↔
      ∃ curve_sec, C.sk_to_curve c.sec = some curve_sec ∧
        C.scalarmult curve_sec c.server_eph_pub ≠ zeros32 ∧
        ∃ sig, C.openBox acc zero_nonce
            (C.sha256 (c.app ++ c.shared_secret ++ c.server_lterm_shared ++
              C.scalarmult curve_sec c.server_eph_pub)) = some sig ∧
          C.sign_verify sig (c.app ++ c.hello ++ c.shared_hash) c.server_pub = true := by
  unfold shs1_verify_server_acc
  dsimp only
  split
  next h => simp [h]
  next curve_sec h =>
    split
    next hz => simp [h, hz]
    next hz =>
      split
      next ho =>
        simp only [List.append_assoc] at ho
        simp [h, hz, ho]
      next sig ho =>
        simp only [List.append_assoc] at ho
        simp [h, hz, ho]

/-! ## C4 — structure of the client auth message -/

/-- The toy secretbox adds exactly the 16-byte libsodium overhead. -/
theorem toySeal_length (m k : Bytes) :
    (toyCrypto.sealBox m zero_nonce k).length = m.length + 16 := by
  simp [toyCrypto, toySeal]

/-- C4: on success, `shs1_create_client_auth` writes exactly the 112-byte
message `secretbox_seal(hello, nonce = 24 zero bytes, box_key)`, where
`hello` is the 96-byte `sign_detached(A_s, K || B_p || SHA256(shared_secret))
|| A_p` and `box_key = SHA256(K || shared_secret || server_lterm_shared)`,
with `shared_secret = scalarmult(a_s, b_p)` and `server_lterm_shared =
scalarmult(a_s, curve25519(B_p))`. -/
theorem shs1_create_client_auth_message_structure (C : Crypto) (c : SHS1_Client)
    (curve_server_pub : Bytes)
    (h1 : C.scalarmult c.eph_sec c.server_eph_pub ≠ zeros32)
    (h2 : C.pk_to_curve c.server_pub = some curve_server_pub)
    (h3 : C.scalarmult c.eph_sec curve_server_pub ≠ zeros32)
    (hsig : (C.sign c.sec (c.app ++ c.server_pub ++
        C.sha256 (C.scalarmult c.eph_sec c.server_eph_pub))).length = 64)
    (hpub : c.pub.length = 32)
    (hseal : ∀ m k : Bytes, (C.sealBox m zero_nonce k).length = m.length + 16) :
    (shs1_create_client_auth C c).1 = 0 ∧
    (shs1_create_client_auth C c).2.2 = some (C.sealBox
        (C.sign c.sec (c.app ++ c.server_pub ++
           C.sha256 (C.scalarmult c.eph_sec c.server_eph_pub)) ++ c.pub)
        zero_nonce
        (C.sha256 (c.app ++ C.scalarmult c.eph_sec c.server_eph_pub ++
           C.scalarmult c.eph_sec curve_server_pub))) ∧
    (C.sealBox
        (C.sign c.sec (c.app ++ c.server_pub ++
           C.sha256 (C.scalarmult c.eph_sec c.server_eph_pub)) ++ c.pub)
        zero_nonce
        (C.sha256 (c.app ++ C.scalarmult c.eph_sec c.server_eph_pub ++
           C.scalarmult c.eph_sec curve_server_pub))).length = 112 := by
  refine ⟨?_, ?_, ?_⟩
  · unfold shs1_create_client_auth
    simp [h1, h2, h3]
  · unfold shs1_create_client_auth
    simp [h1, h2, h3]
  · have hsig2 := hsig
    simp only [List.append_assoc] at hsig2
    rw [hseal]
    simp [hsig2, hpub]

theorem shs1_create_client_auth_message_structure_witness :
    (shs1_create_client_auth toyCrypto clientGood).1 = 0 ∧
    (shs1_create_client_auth toyCrypto clientGood).2.2 = some (toyCrypto.sealBox
        (toyCrypto.sign clientGood.sec (clientGood.app ++ clientGood.server_pub ++
           toyCrypto.sha256 (toyCrypto.scalarmult clientGood.eph_sec clientGood.server_eph_pub)) ++ clientGood.pub)
        zero_nonce
        (toyCrypto.sha256 (clientGood.app ++
           toyCrypto.scalarmult clientGood.eph_sec clientGood.server_eph_pub ++
           toyCrypto.scalarmult clientGood.eph_sec tB_p))) ∧
    (toyCrypto.sealBox
        (toyCrypto.sign clientGood.sec (clientGood.app ++ clientGood.server_pub ++
           toyCrypto.sha256 (toyCrypto.scalarmult clientGood.eph_sec clientGood.server_eph_pub)) ++ clientGood.pub)
        zero_nonce
        (toyCrypto.sha256 (clientGood.app ++
           toyCrypto.scalarmult clientGood.eph_sec clientGood.server_eph_pub ++
           toyCrypto.scalarmult clientGood.eph_sec tB_p))).length = 112 :=
  shs1_create_client_auth_message_structure toyCrypto clientGood tB_p
    (by decide) (by decide) (by decide) (by decide) (by decide) toySeal_length

/-! ## C3 — `shs1_verify_client_auth` characterization -/

/-- C3 (amended): `shs1_verify_client_auth` returns `true` iff every step
succeeds — the scalar multiplications and the two key conversions succeed,
the auth message opens under the all-zero nonce with key
`SHA256(K || shared_secret || client_eph_lterm_shared)`, and the first 64
bytes of the opened hello verify as a detached signature by the extracted
client public key over `K || B_p || SHA256(shared_secret)`.  On success
`server->box_sec` holds
`SHA256(K || shared_secret || client_eph_lterm_shared ||
lterm_eph_client_shared)` and `client_pub` the 32 bytes at offset 64 of the
opened hello; `box_sec` is written only on success, but `client_pub` is
written as soon as the box opens, even if a later step fails. -/
theorem shs1_verify_client_auth_characterization (C : Crypto) (auth : Bytes)
    (s : SHS1_Server) :
    ((shs1_verify_client_auth C auth s).1 = true ↔
      C.scalarmult s.eph_sec s.client_eph_pub ≠ zeros32 ∧
      ∃ curve_sec, C.sk_to_curve s.sec = some curve_sec ∧
        C.scalarmult curve_sec s.client_eph_pub ≠ zeros32 ∧
        ∃ hello, C.openBox auth zero_nonce
            (C.sha256 (s.app ++ C.scalarmult s.eph_sec s.client_eph_pub ++
              C.scalarmult curve_sec s.client_eph_pub)) = some hello ∧
          ∃ curve_client_pub,
            C.pk_to_curve ((hello.drop 64).take 32) = some curve_client_pub ∧
            C.scalarmult s.eph_sec curve_client_pub ≠ zeros32 ∧
            C.sign_verify (hello.take 64)
              (s.app ++ s.pub ++ C.sha256 (C.scalarmult s.eph_sec s.client_eph_pub))
              ((hello.drop 64).take 32) = true) ∧
    ((shs1_verify_client_auth C auth s).1 = true →
      ∃ curve_sec hello curve_client_pub,
        C.sk_to_curve s.sec = some curve_sec ∧
        C.openBox auth zero_nonce
            (C.sha256 (s.app ++ C.scalarmult s.eph_sec s.client_eph_pub ++
              C.scalarmult curve_sec s.client_eph_pub)) = some hello ∧
        C.pk_to_curve ((hello.drop 64).take 32) = some curve_client_pub ∧
        (shs1_verify_client_auth C auth s).2.box_sec =
          C.sha256 (s.app ++ C.scalarmult s.eph_sec s.client_eph_pub ++
            C.scalarmult curve_sec s.client_eph_pub ++
            C.scalarmult s.eph_sec curve_client_pub) ∧
        (shs1_verify_client_auth C auth s).2.client_pub = (hello.drop 64).take 32) ∧
    ((shs1_verify_client_auth C auth s).1 = false →
      (shs1_verify_client_auth C auth s).2.box_sec = s.box_sec) := by
  unfold shs1_verify_client_auth
  dsimp only
  split
  next h => simp [h]
  next h =>
    split
    next h2 => simp [h, h2]
    next curve_sec h2 =>
      split
      next h3 => simp [h, h2, h3]
      next h3 =>
        split
        next h4 =>
          simp only [List.append_assoc] at h4
          simp [h, h2, h3, h4]
        next hello h4 =>
          simp only [List.append_assoc] at h4
          split
          next h5 => simp [h, h2, h3, h4, h5]
          next curve_client_pub h5 =>
            split
            next h6 => simp [h, h2, h3, h4, h5, h6]
            next h6 =>
              split
              next h7 =>
                simp only [List.append_assoc] at h7
                simp [h, h2, h3, h4, h5, h6, h7]
              next h7 =>
                simp only [List.append_assoc] at h7
                simp [h, h2, h3, h4, h5, h6, h7]

/-- The auth message a correct client produces for `serverChallenged`. -/
def authGood : Bytes := ((shs1_create_client_auth toyCrypto clientGood).2.2).getD []

/-- A 96-byte hello whose signature part is garbage (64 zero bytes). -/
def helloBad : Bytes := List.replicate 64 0 ++ List.replicate 32 9

/-- `helloBad` sealed under the intermediate box key that
`serverChallenged` derives, so the box opens but the signature check
fails. -/
def authBad : Bytes :=
  toySeal helloBad zero_nonce
    (toySha256 (tK ++ toyScalarmult tb_s ta_p ++ toyScalarmult (tB_s.take 32) ta_p))

set_option maxRecDepth 16000 in
/-- C3 counterexample: a run of `shs1_verify_client_auth` that fails (the
opened hello carries a garbage signature) yet writes `server->client_pub`
with the 32 bytes at offset 64 of the opened hello — so `client_pub` is
not written "only on success". -/
theorem shs1_verify_client_auth_sets_client_pub_despite_failure :
    (shs1_verify_client_auth toyCrypto authBad serverChallenged).1 = false ∧
    (shs1_verify_client_auth toyCrypto authBad serverChallenged).2.client_pub
      = (helloBad.drop 64).take 32 ∧
    (shs1_verify_client_auth toyCrypto authBad serverChallenged).2.client_pub
      ≠ serverChallenged.client_pub := by
  decide

set_option maxRecDepth 16000 in
theorem shs1_verify_client_auth_characterization_witness :
    ∃ curve_sec hello curve_client_pub,
      toyCrypto.sk_to_curve serverChallenged.sec = some curve_sec ∧
      toyCrypto.openBox authGood zero_nonce
          (toyCrypto.sha256 (serverChallenged.app ++
            toyCrypto.scalarmult serverChallenged.eph_sec serverChallenged.client_eph_pub ++
            toyCrypto.scalarmult curve_sec serverChallenged.client_eph_pub)) = some hello ∧
      toyCrypto.pk_to_curve ((hello.drop 64).take 32) = some curve_client_pub ∧
      (shs1_verify_client_auth toyCrypto authGood serverChallenged).2.box_sec =
        toyCrypto.sha256 (serverChallenged.app ++
          toyCrypto.scalarmult serverChallenged.eph_sec serverChallenged.client_eph_pub ++
          toyCrypto.scalarmult curve_sec serverChallenged.client_eph_pub ++
          toyCrypto.scalarmult serverChallenged.eph_sec curve_client_pub) ∧
      (shs1_verify_client_auth toyCrypto authGood serverChallenged).2.client_pub
        = (hello.drop 64).take 32 :=
  (shs1_verify_client_auth_characterization toyCrypto authGood serverChallenged).2.1
    (by decide)

/-! ## C1 — full-handshake interoperability -/

/-- C1: for every legal set of inputs — shared application key `K`, client
long-term keypair `(A_p, A_s)`, server long-term keypair `(B_p, B_s)`,
ephemeral keypairs `(a_p, a_s)` and `(b_p, b_s)`, the client initialised
with the server's true `B_p` — running the eight operations in protocol
order all succeeds and the outcomes are equal-and-crossed.  Legality is
expressed by: the four Ed25519↔Curve25519 conversions succeed, the three
Diffie-Hellman computations agree between the two sides and are not
all-zero, tags/keys/signatures have their libsodium lengths, the two
signatures verify under the matching public keys, and the two secretboxes
open to what was sealed. -/
theorem shs1_handshake_interoperability
    (C : Crypto) (K A_p A_s a_p a_s B_p B_s b_p b_s : Bytes)
    (curve_B_p curve_B_s curve_A_s curve_A_p : Bytes)
    (hcBp : C.pk_to_curve B_p = some curve_B_p)
    (hcBs : C.sk_to_curve B_s = some curve_B_s)
    (hcAs : C.sk_to_curve A_s = some curve_A_s)
    (hcAp : C.pk_to_curve A_p = some curve_A_p)
    (hss : C.scalarmult b_s a_p = C.scalarmult a_s b_p)
    (hssne : C.scalarmult a_s b_p ≠ zeros32)
    (hels : C.scalarmult curve_B_s a_p = C.scalarmult a_s curve_B_p)
    (helsne : C.scalarmult a_s curve_B_p ≠ zeros32)
    (hlec : C.scalarmult b_s curve_A_p = C.scalarmult curve_A_s b_p)
    (hlecne : C.scalarmult curve_A_s b_p ≠ zeros32)
    (hlt1 : (C.hmac K a_p).length = 32)
    (hlt2 : (C.hmac K b_p).length = 32)
    (hla : a_p.length = 32) (hlb : b_p.length = 32) (hlA : A_p.length = 32)
    (hlsig : (C.sign A_s (K ++ B_p ++ C.sha256 (C.scalarmult a_s b_p))).length = 64)
    (hsigA : C.sign_verify
        (C.sign A_s (K ++ B_p ++ C.sha256 (C.scalarmult a_s b_p)))
        (K ++ B_p ++ C.sha256 (C.scalarmult a_s b_p)) A_p = true)
    (hsigB : C.sign_verify
        (C.sign B_s (K ++ (C.sign A_s (K ++ B_p ++ C.sha256 (C.scalarmult a_s b_p)) ++ A_p)
          ++ C.sha256 (C.scalarmult a_s b_p)))
        (K ++ (C.sign A_s (K ++ B_p ++ C.sha256 (C.scalarmult a_s b_p)) ++ A_p)
          ++ C.sha256 (C.scalarmult a_s b_p)) B_p = true)
    (hopen1 : C.openBox
        (C.sealBox (C.sign A_s (K ++ B_p ++ C.sha256 (C.scalarmult a_s b_p)) ++ A_p)
          zero_nonce
          (C.sha256 (K ++ C.scalarmult a_s b_p ++ C.scalarmult a_s curve_B_p)))
        zero_nonce
        (C.sha256 (K ++ C.scalarmult a_s b_p ++ C.scalarmult a_s curve_B_p))
      = some (C.sign A_s (K ++ B_p ++ C.sha256 (C.scalarmult a_s b_p)) ++ A_p))
    (hopen2 : C.openBox
        (C.sealBox
          (C.sign B_s (K ++ (C.sign A_s (K ++ B_p ++ C.sha256 (C.scalarmult a_s b_p)) ++ A_p)
            ++ C.sha256 (C.scalarmult a_s b_p)))
          zero_nonce
          (C.sha256 (K ++ C.scalarmult a_s b_p ++ C.scalarmult a_s curve_B_p
            ++ C.scalarmult curve_A_s b_p)))
        zero_nonce
        (C.sha256 (K ++ C.scalarmult a_s b_p ++ C.scalarmult a_s curve_B_p
          ++ C.scalarmult curve_A_s b_p))
      = some (C.sign B_s (K ++ (C.sign A_s (K ++ B_p ++ C.sha256 (C.scalarmult a_s b_p)) ++ A_p)
          ++ C.sha256 (C.scalarmult a_s b_p)))) :
    ∃ oc os, handshake C K A_p A_s a_p a_s B_p B_s b_p b_s = some (oc, os) ∧
      oc.encryption_key = os.decryption_key ∧
      oc.decryption_key = os.encryption_key ∧
      oc.encryption_nonce = os.decryption_nonce ∧
      oc.decryption_nonce = os.encryption_nonce := by
  have p1 : (C.hmac K a_p ++ a_p).take 32 = C.hmac K a_p :=
    take_append_exact _ _ _ hlt1
  have p2 : ((C.hmac K a_p ++ a_p).drop 32).take 32 = a_p := by
    rw [drop_append_exact _ _ _ hlt1, take_all_exact _ _ hla]
  have q1 : (C.hmac K b_p ++ b_p).take 32 = C.hmac K b_p :=
    take_append_exact _ _ _ hlt2
  have q2 : ((C.hmac K b_p ++ b_p).drop 32).take 32 = b_p := by
    rw [drop_append_exact _ _ _ hlt2, take_all_exact _ _ hlb]
  have r1 : ((C.sign A_s (K ++ B_p ++ C.sha256 (C.scalarmult a_s b_p)) ++ A_p).drop 64)
      = A_p := drop_append_exact _ _ _ hlsig
  have r2 : A_p.take 32 = A_p := take_all_exact _ _ hlA
  have r3 : ((C.sign A_s (K ++ B_p ++ C.sha256 (C.scalarmult a_s b_p)) ++ A_p).take 64)
      = C.sign A_s (K ++ B_p ++ C.sha256 (C.scalarmult a_s b_p)) :=
    take_append_exact _ _ _ hlsig
  simp only [List.append_assoc] at hsigA hsigB hopen1 hopen2 r1 r3
  simp [handshake, shs1_init_client, shs1_init_server,
    shs1_create_client_challenge, shs1_verify_client_challenge,
    shs1_create_server_challenge, shs1_verify_server_challenge,
    shs1_create_client_auth, shs1_verify_client_auth,
    shs1_create_server_acc, shs1_verify_server_acc,
    shs1_client_outcome, shs1_server_outcome, crypto_auth_verify,
    p1, p2, q1, q2, r1, r2, r3,
    hcBp, hcBs, hcAs, hcAp, hss, hssne, hels, helsne, hlec, hlecne,
    hsigA, hsigB, hopen1, hopen2]
  exact ⟨_, _, ⟨rfl, rfl⟩, rfl, rfl, rfl, rfl⟩

set_option maxRecDepth 16000 in
theorem shs1_handshake_interoperability_witness :
    ∃ oc os, handshake toyCrypto tK tA_p tA_s ta_p ta_s tB_p tB_s tb_p tb_s
        = some (oc, os) ∧
      oc.encryption_key = os.decryption_key ∧
      oc.decryption_key = os.encryption_key ∧
      oc.encryption_nonce = os.decryption_nonce ∧
      oc.decryption_nonce = os.encryption_nonce :=
  shs1_handshake_interoperability toyCrypto tK tA_p tA_s ta_p ta_s tB_p tB_s tb_p tb_s
    tB_p (tB_s.take 32) (tA_s.take 32) tA_p
    (by decide) (by decide) (by decide) (by decide)
    (by decide) (by decide) (by decide) (by decide)
    (by decide) (by decide) (by decide) (by decide)
    (by decide) (by decide) (by decide) (by decide)
    (by decide) (by decide) (by decide) (by decide)
